import Mathlib

/-!
Shallow embedding of `src/backend/services/security_service.py`
(class `SecurityService`) from the NexuFile repository.

Python floats are modelled as rationals (ℚ): every score the code
manipulates is a small decimal literal and the additions involved are
exact in binary64 for all the inputs considered here, so ℚ arithmetic
coincides with the float arithmetic on the values that matter.
Python `datetime` values are modelled as integer seconds since the epoch
(UTC); the code stores `isoformat()` strings and parses them back with
`fromisoformat`, a round trip that preserves the instant, and sorts the
strings lexicographically, which for this uniform format coincides with
chronological order.  Python exceptions are modelled explicitly: the
`try/except` wrapper of `check_file_security` takes the possible
exception as an `Option String` argument.
-/

namespace NexuFile

/-- The slice of the AI analysis dict that `check_file_security` reads:
`security_analysis.threat_level`, `security_analysis.malware_indicators`,
`security_analysis.compliance_issues` and
`content_analysis.sensitive_data_detected`. -/
structure AiAnalysis where
  threat_level : String
  malware_indicators : List String
  compliance_issues : List String
  sensitive_data_detected : List String
deriving DecidableEq, Repr

/-- The uploaded-file attributes that `_perform_file_security_checks`
reads: `file.tell()` size, `file.filename`, `file.content_type`. -/
structure UploadFile where
  size : Nat
  filename : Option String
  content_type : String
deriving DecidableEq, Repr

/-- The dict returned by `_perform_file_security_checks`.  On the
exception path the Python code returns only `suspicious` and `error`,
so the three named flags are optional. -/
structure FileChecks where
  suspicious : Bool
  file_size_ok : Option Bool
  extension_valid : Option Bool
  content_type_matches : Option Bool
  error : Option String
deriving DecidableEq, Repr

/-- `pat` occurs at the start of `s` (character lists). -/
def charsStart : List Char → List Char → Bool
  | _, [] => true
  | [], _ :: _ => false
  | c :: cs, p :: ps => c == p && charsStart cs ps

/-- `pat` occurs contiguously somewhere in `s` (character lists). -/
def charsContain : List Char → List Char → Bool
  | [], pat => charsStart [] pat
  | c :: cs, pat => charsStart (c :: cs) pat || charsContain cs pat

/-- Python `pat in s` substring test. -/
def strContains (s pat : String) : Bool :=
  charsContain s.toList pat.toList

/-- Python `str.lower()` (ASCII case folding, which covers every string
the code applies it to). -/
def lowerStr (s : String) : String :=
  String.mk (s.toList.map Char.toLower)

/-- `_perform_file_security_checks` (security_service.py lines 234-270).
When `filename` is `None`, the extension check flags the file, but the
subsequent `file.filename.lower()` raises `AttributeError`; the local
handler then returns only `{'suspicious': True, 'error': ...}`. -/
def performFileSecurityChecks (f : UploadFile) : FileChecks :=
  let sizeOk : Bool := f.size ≤ 100 * 1024 * 1024
  match f.filename with
  | none =>
      { suspicious := true, file_size_ok := none, extension_valid := none,
        content_type_matches := none,
        error := some "AttributeError: NoneType has no attribute lower" }
  | some name =>
      let extVal : Bool := !(name == "") && strContains name "."
      let ctMatch : Bool :=
        !(strContains (lowerStr name) "exe"
          && !(strContains f.content_type "application/octet-stream"))
      { suspicious := !sizeOk || !extVal || !ctMatch,
        file_size_ok := some sizeOk, extension_valid := some extVal,
        content_type_matches := some ctMatch, error := none }

/-- The `details` dict of a `security_result`: file checks on the normal
path, `\x7b'error': str(e)\x7d` on the exception path. -/
inductive Details where
  | err (e : String)
  | checks (c : FileChecks)
deriving DecidableEq, Repr

/-- The `security_result` dict built by `check_file_security`. -/
structure SecurityResult where
  safe : Bool
  risk_score : ℚ
  threats_detected : List String
  details : Details
  recommendations : List String
deriving DecidableEq, Repr

/-- Lines 46-50: high/critical threat level forces unsafe, score 0.9. -/
def applyThreatLevel (a : AiAnalysis) (r : SecurityResult) : SecurityResult :=
  if a.threat_level == "high" || a.threat_level == "critical" then
    { r with
      safe := false
      risk_score := 9/10
      threats_detected := r.threats_detected
        ++ ["High threat level detected: " ++ a.threat_level] }
  else r

/-- Lines 53-57: sensitive data adds 0.3 and an encryption recommendation. -/
def applySensitiveData (a : AiAnalysis) (r : SecurityResult) : SecurityResult :=
  if a.sensitive_data_detected ≠ [] then
    { r with
      risk_score := r.risk_score + 3/10
      threats_detected := r.threats_detected
        ++ ["Sensitive data detected: "
            ++ toString a.sensitive_data_detected.length ++ " items"]
      recommendations := r.recommendations ++ ["Consider encrypting this file"] }
  else r

/-- Lines 60-64: malware indicators force unsafe and SET score to 1.0. -/
def applyMalware (a : AiAnalysis) (r : SecurityResult) : SecurityResult :=
  if a.malware_indicators ≠ [] then
    { r with
      safe := false
      risk_score := 1
      threats_detected := r.threats_detected ++ ["Malware indicators detected"] }
  else r

/-- Lines 67-70: compliance issues add 0.2. -/
def applyCompliance (a : AiAnalysis) (r : SecurityResult) : SecurityResult :=
  if a.compliance_issues ≠ [] then
    { r with
      risk_score := r.risk_score + 2/10
      threats_detected := r.threats_detected
        ++ ["Compliance issues: " ++ toString a.compliance_issues] }
  else r

/-- The four analysis checks of lines 42-70, in program order. -/
def applyAnalysis (a : AiAnalysis) (r : SecurityResult) : SecurityResult :=
  applyCompliance a (applyMalware a (applySensitiveData a (applyThreatLevel a r)))

/-- Lines 72-78: record the file checks in `details` and add 0.4 when
they flag the file as suspicious. -/
def applyFileChecks (checks : FileChecks) (r : SecurityResult) : SecurityResult :=
  let r1 := { r with details := Details.checks checks }
  if checks.suspicious then
    { r1 with
      risk_score := r1.risk_score + 4/10
      threats_detected := r1.threats_detected
        ++ ["Suspicious file characteristics detected"] }
  else r1

/-- Lines 81-82: a total score of at least 0.7 forces unsafe. -/
def applyThreshold (r : SecurityResult) : SecurityResult :=
  if (7:ℚ)/10 ≤ r.risk_score then { r with safe := false } else r

/-- Lines 85-90: an unsafe verdict gets three fixed recommendations. -/
def applyFinalRecommendations (r : SecurityResult) : SecurityResult :=
  if r.safe = false then
    { r with recommendations := r.recommendations
        ++ ["File flagged for manual review",
            "Consider scanning with additional security tools",
            "Restrict access to authorized personnel only"] }
  else r

/-- The fresh `security_result` of lines 33-39. -/
def initialResult : SecurityResult :=
  { safe := true, risk_score := 0, threats_detected := [],
    details := Details.err "unset", recommendations := [] }

/-- The body of the `try` block of `check_file_security`
(security_service.py lines 33-92), as a total function. -/
def checkFileSecurityBody (ai : Option AiAnalysis) (f : UploadFile) :
    SecurityResult :=
  let r := match ai with
    | some a => applyAnalysis a initialResult
    | none => initialResult
  applyFinalRecommendations (applyThreshold
    (applyFileChecks (performFileSecurityChecks f) r))

/-- `check_file_security` (lines 30-102).  `exn = some e` models an
exception `e` raised while evaluating a sub-check inside the `try`
block; the `except` handler (lines 94-102) then returns the fixed
fail-closed verdict. -/
def check_file_security (ai : Option AiAnalysis) (f : UploadFile)
    (exn : Option String) : SecurityResult :=
  match exn with
  | some e =>
      { safe := false, risk_score := 1,
        threats_detected := ["Security check failed"],
        details := Details.err e,
        recommendations := ["Manual review required"] }
  | none => checkFileSecurityBody ai f

/-! ## Activity monitoring (lines 104-138, 166-232, 272-336, 372-404) -/

/-- The `activity_log` dict built by `monitor_user_activity` (lines
110-117).  The dict never receives a `'suspicious'` key anywhere in the
code, so `log.get('suspicious', False)` always yields `False`; the field
is kept because `get_user_threats` and `get_user_audit_log` read it. -/
structure ActivityEvent where
  user_id : String
  activity_type : String
  timestamp : Int
  details : List (String × String)
  ip_address : Option String
  user_agent : Option String
  suspicious : Bool
deriving DecidableEq, Repr

/-- A suspicious-activity dict produced by `_detect_suspicious_patterns`.
The three rules attach different evidence keys (`count`, `ip_count`,
`hour`); each is optional here. -/
structure SuspiciousFinding where
  type : String
  severity : String
  description : String
  count : Option Nat
  ip_count : Option Nat
  hour : Option Nat
deriving DecidableEq, Repr

/-- An entry of `self.threat_database` (lines 323-329). -/
structure ThreatRecord where
  user_id : String
  activity : SuspiciousFinding
  timestamp : Int
  status : String
deriving DecidableEq, Repr

/-- A threat dict returned by `get_user_threats` (lines 176-193). -/
structure ThreatAlert where
  type : String
  severity : String
  description : String
  recommendations : List String
deriving DecidableEq, Repr

/-- The mutable state of a `SecurityService` instance that the monitoring
claims touch: `self.access_logs` (a per-user ledger) and
`self.threat_database` (modelled as the list of records in insertion
order; the md5-derived keys are distinct for the records considered). -/
structure SecurityState where
  access_logs : String → List ActivityEvent
  threat_database : List ThreatRecord

/-- The empty state built by `__init__`. -/
def initState : SecurityState :=
  { access_logs := fun _ => [], threat_database := [] }

/-- `_get_recent_activities` (lines 372-394) with the cutoff expressed in
seconds: keeps, in stored order, the events with
`timestamp >= now - seconds`. -/
def getRecentActivities (logs : List ActivityEvent) (now seconds : Int) :
    List ActivityEvent :=
  logs.filter (fun l => now - seconds ≤ l.timestamp)

/-- `datetime.utcnow().hour` for an epoch instant `now`. -/
def utcHour (now : Int) : Nat :=
  (now % 86400).toNat / 3600

/-- The distinct non-null IP addresses of a window:
`set(a.get('ip_address') for a in recent_activities if a.get('ip_address'))`
(line 290).  Python truthiness drops both `None` and the empty string. -/
def distinctIps (recent : List ActivityEvent) : List String :=
  (recent.filterMap
    (fun a => match a.ip_address with
      | some s => if s = "" then none else some s
      | none => none)).dedup

/-- `_detect_suspicious_patterns` (lines 272-313).  The rules fire off
the stored ledger (which already contains the just-appended event) and
the wall clock `now`.  Note: the code contains no brute-force rule. -/
def detectSuspiciousPatterns (logs : List ActivityEvent) (now : Int) :
    List SuspiciousFinding :=
  let recent := getRecentActivities logs now (10 * 60)
  let fileAccess := recent.filter (fun a => a.activity_type == "file_access")
  let rapid : List SuspiciousFinding :=
    if 20 < fileAccess.length then
      [{ type := "rapid_file_access", severity := "medium",
         description := "Unusually high number of file access attempts",
         count := some fileAccess.length, ip_count := none, hour := none }]
    else []
  let ips := distinctIps recent
  let multiIp : List SuspiciousFinding :=
    if 3 < ips.length then
      [{ type := "multiple_ips", severity := "high",
         description := "Account accessed from multiple IP addresses",
         count := none, ip_count := some ips.length, hour := none }]
    else []
  let hour := utcHour now
  let offHours : List SuspiciousFinding :=
    if hour < 6 ∨ 23 < hour then
      [{ type := "unusual_time_access", severity := "low",
         description := "Account accessed during unusual hours",
         count := none, ip_count := none, hour := some hour }]
    else []
  rapid ++ multiIp ++ offHours

/-- `_handle_suspicious_activity` (lines 315-336): every finding, of any
severity, is stored in `self.threat_database` with status `'active'`
(the high-severity alert is a log line with no state effect). -/
def handleSuspiciousActivity (st : SecurityState) (user_id : String)
    (findings : List SuspiciousFinding) (now : Int) : SecurityState :=
  { st with threat_database := st.threat_database
      ++ findings.map (fun f =>
          { user_id := user_id, activity := f, timestamp := now,
            status := "active" }) }

/-- The `{'monitored': ..., 'suspicious_activities': ...}` return value
of `monitor_user_activity`. -/
structure MonitorResult where
  monitored : Bool
  suspicious_activities : List SuspiciousFinding
deriving DecidableEq, Repr

/-- The `activity_log` dict of lines 110-117.  `details.get(...)` is a
lookup in the caller-supplied dict. -/
def mkEvent (user_id activity_type : String) (details : List (String × String))
    (now : Int) : ActivityEvent :=
  { user_id := user_id, activity_type := activity_type, timestamp := now,
    details := details,
    ip_address := details.lookup "ip_address",
    user_agent := details.lookup "user_agent",
    suspicious := false }

/-- `monitor_user_activity` (lines 104-138): build the event, append it
to the user's ledger, run detection, persist any findings, then truncate
the ledger to its last 1000 entries. -/
def monitor_user_activity (st : SecurityState) (user_id activity_type : String)
    (details : List (String × String)) (now : Int) :
    SecurityState × MonitorResult :=
  let logs1 := st.access_logs user_id ++ [mkEvent user_id activity_type details now]
  let findings := detectSuspiciousPatterns logs1 now
  let st1 :=
    { st with access_logs := fun u => if u = user_id then logs1 else st.access_logs u }
  let st2 :=
    if findings ≠ [] then handleSuspiciousActivity st1 user_id findings now
    else st1
  let logs2 := if 1000 < logs1.length then logs1.drop (logs1.length - 1000) else logs1
  let st3 :=
    { st2 with access_logs := fun u => if u = user_id then logs2 else st2.access_logs u }
  (st3, { monitored := true, suspicious_activities := findings })

/-- `get_user_threats` (lines 166-204).  The `'suspicious'` key is never
set on stored events, so the first branch counts zero events; the
brute-force branch fires when at least `max_login_attempts = 5`
`login_failed` events lie in the trailing hour;
`_detect_unusual_access_patterns` returns `[]`. -/
def get_user_threats (st : SecurityState) (user_id : String) (now : Int) :
    List ThreatAlert :=
  let recent24 := getRecentActivities (st.access_logs user_id) now (24 * 3600)
  let suspiciousCount := (recent24.filter (fun a => a.suspicious)).length
  let t1 : List ThreatAlert :=
    if 0 < suspiciousCount then
      [{ type := "suspicious_activity", severity := "medium",
         description := toString suspiciousCount
           ++ " suspicious activities detected in last 24 hours",
         recommendations := ["Review recent account activity",
                             "Change password if necessary"] }]
    else []
  let failedLogins := (getRecentActivities (st.access_logs user_id) now 3600).filter
    (fun a => a.activity_type == "login_failed")
  let t2 : List ThreatAlert :=
    if 5 ≤ failedLogins.length then
      [{ type := "brute_force_attempt", severity := "high",
         description := toString failedLogins.length
           ++ " failed login attempts in last hour",
         recommendations := ["Account temporarily locked",
                             "Contact administrator if this was not you"] }]
    else []
  t1 ++ t2

/-- The order `user_logs.sort(key=..., reverse=True)` (line 213) sorts
into: later timestamps first (the code compares the isoformat strings,
which orders instants chronologically). -/
def laterFirst (a b : ActivityEvent) : Prop :=
  b.timestamp ≤ a.timestamp

instance : DecidableRel laterFirst := fun _ _ => Int.decLe _ _

/-- `user_logs.sort(key=..., reverse=True)` (line 213): a stable sort
into timestamp-descending order. -/
def sortByTimestampDesc (logs : List ActivityEvent) : List ActivityEvent :=
  logs.insertionSort laterFirst

/-- An entry of the list returned by `get_user_audit_log` (lines 218-225). -/
structure AuditEntry where
  timestamp : Int
  activity_type : String
  ip_address : Option String
  user_agent : Option String
  details : List (String × String)
  suspicious : Bool
deriving DecidableEq, Repr

/-- `get_user_audit_log` (lines 206-232).  `self.access_logs.get(user_id, [])`
aliases the stored list, so `user_logs.sort(...)` reorders the ledger in
place; the function therefore returns an updated state alongside the
formatted log. -/
def get_user_audit_log (st : SecurityState) (user_id : String) :
    SecurityState × List AuditEntry :=
  let sorted := sortByTimestampDesc (st.access_logs user_id)
  let st1 :=
    { st with access_logs := fun u => if u = user_id then sorted else st.access_logs u }
  (st1, sorted.map (fun l =>
    { timestamp := l.timestamp, activity_type := l.activity_type,
      ip_address := l.ip_address, user_agent := l.user_agent,
      details := l.details, suspicious := l.suspicious }))

/-! ## Concrete inputs used by witnesses and counterexamples -/

/-- A small, well-named, correctly typed upload: none of the file checks
flag it. -/
def benignFile : UploadFile :=
  { size := 100, filename := some "a.txt", content_type := "text/plain" }

/-- An upload whose filename has no extension: the extension check flags
it as suspicious. -/
def noExtFile : UploadFile :=
  { size := 100, filename := some "noext", content_type := "text/plain" }

/-- Analysis with malware indicators and a compliance issue. -/
def malwareComplianceAnalysis : AiAnalysis :=
  { threat_level := "low", malware_indicators := ["trojan.sig"],
    compliance_issues := ["GDPR"], sensitive_data_detected := [] }

/-- Analysis whose only signal is a malware indicator. -/
def malwareOnlyAnalysis : AiAnalysis :=
  { threat_level := "low", malware_indicators := ["trojan.sig"],
    compliance_issues := [], sensitive_data_detected := [] }

/-- The scenario analysis of claim C7: two sensitive items, one
compliance issue, low threat, no malware. -/
def mediumSignalsAnalysis : AiAnalysis :=
  { threat_level := "low", malware_indicators := [],
    compliance_issues := ["GDPR"], sensitive_data_detected := ["a", "b"] }

/-- Run a sequence of `monitor_user_activity` calls for one user and
activity type (no details dict), one call per listed instant. -/
def runMonitor (st : SecurityState) (user ty : String) (times : List Int) :
    SecurityState :=
  times.foldl (fun s t => (monitor_user_activity s user ty [] t).fst) st

/-- State after four `login_failed` appends for user `u`, one minute
apart starting at 12:00 UTC (epoch day 0). -/
def fourLoginsState : SecurityState :=
  runMonitor initState "u" "login_failed" [43200, 43260, 43320, 43380]

/-- The fifth `login_failed` append, one hour's worth of failures now in
the ledger. -/
def fifthLoginAppend : SecurityState × MonitorResult :=
  monitor_user_activity fourLoginsState "u" "login_failed" [] 43440

/-- State after 21 `file_access` appends for user `u`, ten seconds
apart starting at 12:00 UTC. -/
def rapidAccessState : SecurityState :=
  runMonitor initState "u" "file_access"
    ((List.range 21).map (fun i => 43200 + 10 * (i : Int)))

/-- State after two `file_access` appends at 12:00 and 12:01 UTC. -/
def twoEventsState : SecurityState :=
  runMonitor initState "u" "file_access" [43200, 43260]

/-- `twoEventsState` after one `get_user_audit_log` call, which reorders
the stored ledger. -/
def afterAuditState : SecurityState :=
  (get_user_audit_log twoEventsState "u").fst

/-- `afterAuditState` after appending a third event at 12:02 UTC. -/
def afterAuditAppendState : SecurityState :=
  (monitor_user_activity afterAuditState "u" "file_access" [] 43320).fst

/-- A ledger whose user `u` already holds 1000 events. -/
def fullLedgerState : SecurityState :=
  { access_logs := fun u =>
      if u = "u" then List.replicate 1000 (mkEvent "u" "file_access" [] 0) else [],
    threat_database := [] }

/-- A login event carrying an IP address. -/
def ipEvent (ip : String) (t : Int) : ActivityEvent :=
  { user_id := "u", activity_type := "login_success", timestamp := t,
    details := [("ip_address", ip)], ip_address := some ip, user_agent := none,
    suspicious := false }

/-- Four events in one 10-minute window with four distinct IPs. -/
def fourIpLogs : List ActivityEvent :=
  [ipEvent "10.0.0.1" 43200, ipEvent "10.0.0.2" 43210,
   ipEvent "10.0.0.3" 43220, ipEvent "10.0.0.4" 43230]

/-- The same window with only three distinct IPs. -/
def threeIpLogs : List ActivityEvent :=
  [ipEvent "10.0.0.1" 43200, ipEvent "10.0.0.2" 43210,
   ipEvent "10.0.0.3" 43220, ipEvent "10.0.0.3" 43230]

/-! ## Stage lemmas for the risk evaluator -/

lemma applyMalware_safe (a : AiAnalysis) (r : SecurityResult)
    (h : a.malware_indicators ≠ []) : (applyMalware a r).safe = false := by
  simp [applyMalware, h]

lemma applyMalware_score (a : AiAnalysis) (r : SecurityResult)
    (h : a.malware_indicators ≠ []) : (applyMalware a r).risk_score = 1 := by
  simp [applyMalware, h]

lemma applyCompliance_safe (a : AiAnalysis) (r : SecurityResult) :
    (applyCompliance a r).safe = r.safe := by
  unfold applyCompliance; split_ifs <;> rfl

lemma applyCompliance_score (a : AiAnalysis) (r : SecurityResult) :
    (applyCompliance a r).risk_score =
      r.risk_score + (if a.compliance_issues = [] then 0 else 2/10) := by
  unfold applyCompliance; split_ifs with h <;> simp_all

lemma applyFileChecks_safe (c : FileChecks) (r : SecurityResult) :
    (applyFileChecks c r).safe = r.safe := by
  unfold applyFileChecks; split_ifs <;> rfl

lemma applyFileChecks_score (c : FileChecks) (r : SecurityResult) :
    (applyFileChecks c r).risk_score =
      r.risk_score + (if c.suspicious then 4/10 else 0) := by
  unfold applyFileChecks; split_ifs with h <;> simp_all

lemma applyThreshold_score (r : SecurityResult) :
    (applyThreshold r).risk_score = r.risk_score := by
  unfold applyThreshold; split_ifs <;> rfl

lemma applyThreshold_safe_of_false (r : SecurityResult) (h : r.safe = false) :
    (applyThreshold r).safe = false := by
  unfold applyThreshold; split_ifs <;> simp_all

lemma applyFinalRecommendations_safe (r : SecurityResult) :
    (applyFinalRecommendations r).safe = r.safe := by
  unfold applyFinalRecommendations; split_ifs <;> rfl

lemma applyFinalRecommendations_score (r : SecurityResult) :
    (applyFinalRecommendations r).risk_score = r.risk_score := by
  unfold applyFinalRecommendations; split_ifs <;> rfl

/-! ## Claim theorems -/

/-- **C1 (counterexample).**  With malware indicators present together
with a compliance issue, the verdict's risk score is 1.2, not 1.0: the
compliance rule still adds 0.2 after the malware rule set the score to
1.0, so the score is not 1.0 "regardless of the values of all other
fields". -/
theorem malware_with_compliance_score_not_one :
    malwareComplianceAnalysis.malware_indicators ≠ [] ∧
    (check_file_security (some malwareComplianceAnalysis) benignFile none).risk_score = 6/5 ∧
    ((6 : ℚ)/5 ≠ 1) := by
  refine ⟨by decide, ?_, by norm_num⟩
  have hch : (performFileSecurityChecks benignFile).suspicious = false := by decide
  show (applyFinalRecommendations (applyThreshold (applyFileChecks
      (performFileSecurityChecks benignFile)
      (applyAnalysis malwareComplianceAnalysis initialResult)))).risk_score = 6/5
  rw [applyFinalRecommendations_score, applyThreshold_score, applyFileChecks_score,
    hch, if_neg]
  · show (applyCompliance _ (applyMalware _ _)).risk_score + 0 = 6/5
    rw [applyCompliance_score, applyMalware_score _ _ (by decide), if_neg (by decide)]
    norm_num
  · simp

/-- **C1 (amended).**  If `malware_indicators` is non-empty then the
verdict is unsafe and the risk score is at least 1.0 — the malware rule
overrides everything evaluated before it — and the score is exactly 1.0
when the two rules evaluated after it (compliance issues, suspicious
file characteristics) do not fire. -/
theorem malware_forces_unsafe_score_ge_one (a : AiAnalysis) (f : UploadFile)
    (h : a.malware_indicators ≠ []) :
    (check_file_security (some a) f none).safe = false ∧
    1 ≤ (check_file_security (some a) f none).risk_score ∧
    (a.compliance_issues = [] → (performFileSecurityChecks f).suspicious = false →
      (check_file_security (some a) f none).risk_score = 1) := by
  have hsafe : (check_file_security (some a) f none).safe = false := by
    show (applyFinalRecommendations (applyThreshold (applyFileChecks
        (performFileSecurityChecks f) (applyAnalysis a initialResult)))).safe = false
    rw [applyFinalRecommendations_safe]
    apply applyThreshold_safe_of_false
    rw [applyFileChecks_safe, applyAnalysis, applyCompliance_safe,
      applyMalware_safe _ _ h]
  have hscore : (check_file_security (some a) f none).risk_score =
      1 + (if a.compliance_issues = [] then 0 else 2/10)
        + (if (performFileSecurityChecks f).suspicious then 4/10 else 0) := by
    show (applyFinalRecommendations (applyThreshold (applyFileChecks
        (performFileSecurityChecks f) (applyAnalysis a initialResult)))).risk_score = _
    rw [applyFinalRecommendations_score, applyThreshold_score, applyFileChecks_score,
      applyAnalysis, applyCompliance_score, applyMalware_score _ _ h]
  refine ⟨hsafe, ?_, ?_⟩
  · rw [hscore]; split_ifs <;> norm_num
  · intro h1 h2
    rw [hscore, if_pos h1, h2]
    norm_num

/-- **C1 (witness).** -/
theorem malware_forces_unsafe_score_ge_one_witness :
    (check_file_security (some malwareOnlyAnalysis) benignFile none).safe = false :=
  (malware_forces_unsafe_score_ge_one malwareOnlyAnalysis benignFile
    (by decide)).1

/-- **C4 (confirmed).**  When an exception is raised inside the `try`
block of `check_file_security`, the function returns — rather than
propagates — the fixed fail-closed verdict: unsafe, risk score 1.0,
threats `["Security check failed"]`, recommendations
`["Manual review required"]`. -/
theorem check_file_security_fails_closed (ai : Option AiAnalysis)
    (f : UploadFile) (e : String) :
    check_file_security ai f (some e) =
      { safe := false, risk_score := 1,
        threats_detected := ["Security check failed"],
        details := Details.err e,
        recommendations := ["Manual review required"] } := rfl

/-- **C7 (confirmed).**  Two sensitive items (+0.3), one compliance
issue (+0.2) and a suspicious file characteristic (+0.4) with low threat
level and no malware accumulate to risk score 0.9 ≥ 0.7, so the verdict
is unsafe even though no single rule forced it. -/
theorem combined_medium_signals_cross_threshold :
    (check_file_security (some mediumSignalsAnalysis) noExtFile none).risk_score = 9/10 ∧
    (check_file_security (some mediumSignalsAnalysis) noExtFile none).safe = false := by
  have hch : (performFileSecurityChecks noExtFile).suspicious = true := by decide
  have hinner : (applyFileChecks (performFileSecurityChecks noExtFile)
      (applyAnalysis mediumSignalsAnalysis initialResult)).risk_score = 9/10 := by
    rw [applyFileChecks_score, hch, if_pos rfl, applyAnalysis, applyCompliance_score,
      if_neg (by decide : ¬mediumSignalsAnalysis.compliance_issues = [])]
    have hm : applyMalware mediumSignalsAnalysis
        (applySensitiveData mediumSignalsAnalysis
          (applyThreatLevel mediumSignalsAnalysis initialResult)) =
        applySensitiveData mediumSignalsAnalysis
          (applyThreatLevel mediumSignalsAnalysis initialResult) := by
      simp [applyMalware, mediumSignalsAnalysis]
    have hs : (applySensitiveData mediumSignalsAnalysis
        (applyThreatLevel mediumSignalsAnalysis initialResult)).risk_score = 3/10 := by
      simp [applySensitiveData, applyThreatLevel, initialResult, mediumSignalsAnalysis]
    rw [hm, hs]
    norm_num
  constructor
  · show (applyFinalRecommendations (applyThreshold (applyFileChecks
        (performFileSecurityChecks noExtFile)
        (applyAnalysis mediumSignalsAnalysis initialResult)))).risk_score = 9/10
    rw [applyFinalRecommendations_score, applyThreshold_score, hinner]
  · show (applyFinalRecommendations (applyThreshold (applyFileChecks
        (performFileSecurityChecks noExtFile)
        (applyAnalysis mediumSignalsAnalysis initialResult)))).safe = false
    rw [applyFinalRecommendations_safe]
    unfold applyThreshold
    rw [if_pos (by rw [hinner]; norm_num)]

/-! ## Monitoring lemmas -/

lemma utcHour_lt_24 (now : Int) : utcHour now < 24 := by
  unfold utcHour
  omega

lemma detect_off_hours_iff_cond (logs : List ActivityEvent) (now : Int) :
    (∃ f ∈ detectSuspiciousPatterns logs now, f.type = "unusual_time_access") ↔
      (utcHour now < 6 ∨ 23 < utcHour now) := by
  simp only [detectSuspiciousPatterns]
  split_ifs <;> simp_all

lemma monitor_access_logs_self (st : SecurityState)
    (uid ty : String) (details : List (String × String)) (now : Int) :
    (monitor_user_activity st uid ty details now).fst.access_logs uid =
      (if 1000 < (st.access_logs uid ++ [mkEvent uid ty details now]).length
       then (st.access_logs uid ++ [mkEvent uid ty details now]).drop
         ((st.access_logs uid ++ [mkEvent uid ty details now]).length - 1000)
       else st.access_logs uid ++ [mkEvent uid ty details now]) := by
  simp [monitor_user_activity]

/-- **C2 (counterexample).**  Five `login_failed` appends for one user
within one hour: the fifth call to `monitor_user_activity` returns no
findings at all — `_detect_suspicious_patterns` contains no brute-force
rule, so no high-severity brute-force finding appears in any append's
return value. -/
theorem fifth_failed_login_append_returns_no_finding :
    fifthLoginAppend.snd.suspicious_activities = [] ∧
    ¬ ∃ f ∈ fifthLoginAppend.snd.suspicious_activities,
        f.severity = "high" := by
  refine ⟨by decide, ?_⟩
  rintro ⟨f, hf, -⟩
  rw [show fifthLoginAppend.snd.suspicious_activities = [] from by decide] at hf
  exact absurd hf (List.not_mem_nil f)

/-- **C2 (amended).**  Appending `login_failed` events never yields a
brute-force finding from `monitor_user_activity` itself (each of the
five appends returns no findings); the brute-force detection lives in
`get_user_threats`, which reports a high-severity `brute_force_attempt`
threat — recommending a temporary account lock — once five
`login_failed` events lie in the trailing hour, and reports nothing
after only four. -/
theorem brute_force_detected_by_get_user_threats :
    (∀ t ∈ [(43200 : Int), 43260, 43320, 43380],
      (monitor_user_activity (runMonitor initState "u" "login_failed"
        ((List.filter (fun s => s < t) [(43200 : Int), 43260, 43320, 43380])))
        "u" "login_failed" [] t).snd.suspicious_activities = []) ∧
    get_user_threats fifthLoginAppend.fst "u" 43440 =
      [{ type := "brute_force_attempt", severity := "high",
         description := "5 failed login attempts in last hour",
         recommendations := ["Account temporarily locked",
                             "Contact administrator if this was not you"] }] ∧
    get_user_threats fourLoginsState "u" 43380 = [] := by
  refine ⟨by decide, by decide, by decide⟩

/-- **C2 (witness).** -/
theorem brute_force_detected_by_get_user_threats_witness :
    get_user_threats fourLoginsState "u" 43380 = [] :=
  (brute_force_detected_by_get_user_threats).2.2

/-- **C3 (counterexample).**  After 21 rapid `file_access` appends, the
21st append produces a medium-severity `rapid_file_access` finding and
`_handle_suspicious_activity` persists it into `threat_database` — a
medium-severity finding does create a threat record, contradicting the
claimed "if and only if severity is high". -/
theorem medium_finding_persisted_to_threat_database :
    rapidAccessState.threat_database.map
        (fun r => (r.activity.type, r.activity.severity, r.status))
      = [("rapid_file_access", "medium", "active")] := by decide

/-- **C3 (amended).**  Every finding returned by a
`monitor_user_activity` call is persisted into `threat_database` as an
`active` record, regardless of severity; the extra side effect reserved
for high severity is the alert log line, not persistence. -/
theorem all_findings_persisted_regardless_of_severity (st : SecurityState)
    (uid ty : String) (details : List (String × String)) (now : Int) :
    (monitor_user_activity st uid ty details now).fst.threat_database =
      st.threat_database ++
        ((monitor_user_activity st uid ty details now).snd.suspicious_activities).map
          (fun f => { user_id := uid, activity := f, timestamp := now,
                      status := "active" }) := by
  simp only [monitor_user_activity, handleSuspiciousActivity]
  split_ifs with h
  · rfl
  · simp only [ne_eq, not_not] at h
    simp [h]

/-- **C5 (confirmed).**  A `monitor_user_activity` call never leaves
more than 1000 events in the user's ledger, and when the ledger already
holds 1000 events the new append evicts exactly the oldest event: the
result is the old ledger minus its head, in order, with the new event at
the end. -/
theorem ledger_retention_cap (st : SecurityState) (uid ty : String)
    (details : List (String × String)) (now : Int)
    (h : (st.access_logs uid).length ≤ 1000) :
    ((monitor_user_activity st uid ty details now).fst.access_logs uid).length ≤ 1000 ∧
    ((st.access_logs uid).length = 1000 →
      (monitor_user_activity st uid ty details now).fst.access_logs uid =
        (st.access_logs uid).drop 1 ++ [mkEvent uid ty details now]) := by
  rw [monitor_access_logs_self]
  constructor
  · split_ifs with hl
    · simp only [List.length_drop]
      omega
    · simp only [List.length_append, List.length_singleton] at hl ⊢
      omega
  · intro h1000
    have hlen : (st.access_logs uid ++ [mkEvent uid ty details now]).length = 1001 := by
      simp [h1000]
    rw [if_pos (by omega), hlen,
      show (1001 - 1000 : ℕ) = 1 from rfl,
      List.drop_append_of_le_length (by omega)]

lemma fullLedgerState_len : (fullLedgerState.access_logs "u").length = 1000 := by
  show (if ("u" : String) = "u" then
    List.replicate 1000 (mkEvent "u" "file_access" [] 0) else []).length = 1000
  rw [if_pos rfl, List.length_replicate]

/-- **C5 (witness).** -/
theorem ledger_retention_cap_witness :
    ((monitor_user_activity fullLedgerState "u" "file_access" [] 43200).fst.access_logs
        "u").length ≤ 1000 :=
  (ledger_retention_cap fullLedgerState "u" "file_access" [] 43200
    (le_of_eq fullLedgerState_len)).1

/-- **C6 (counterexample).**  The ledger of `afterAuditState` received
its two events at 43200 then 43260, but an intervening
`get_user_audit_log` call sorted the stored list descending; the
10-minute window query then returns the events as `[43260, 43200]`,
which is not a subsequence of the append order `[43200, 43260]` — so
the windowed query does not always return events in the order they were
originally appended. -/
theorem window_query_after_audit_not_append_order :
    (getRecentActivities (afterAuditState.access_logs "u") 43300 (10 * 60)).map
        ActivityEvent.timestamp = [43260, 43200] ∧
    ¬ List.Sublist
        ((getRecentActivities (afterAuditState.access_logs "u") 43300 (10 * 60)).map
          ActivityEvent.timestamp) [(43200 : Int), 43260] := by
  have h1 : (getRecentActivities (afterAuditState.access_logs "u") 43300 (10 * 60)).map
      ActivityEvent.timestamp = [43260, 43200] := by decide
  refine ⟨h1, ?_⟩
  rw [h1]
  intro hsub
  exact absurd (hsub.eq_of_length rfl) (by decide)

/-- **C6 (amended).**  Every event returned by the 10-minute windowed
query has a timestamp no older than 10 minutes before the call time,
and the returned events appear in stored-ledger order (the result is a
subsequence of the stored list); this coincides with original append
order only while the ledger has not been reordered by
`get_user_audit_log`. -/
theorem window_query_bounds_and_stored_order (logs : List ActivityEvent) (now : Int) :
    (∀ e ∈ getRecentActivities logs now (10 * 60), now - 10 * 60 ≤ e.timestamp) ∧
    List.Sublist (getRecentActivities logs now (10 * 60)) logs := by
  constructor
  · intro e he
    have h := List.of_mem_filter he
    simpa using h
  · exact List.filter_sublist _

/-- **C6 (witness).** -/
theorem window_query_bounds_witness :
    (43300 : Int) - 10 * 60 ≤ (mkEvent "u" "file_access" [] 43200).timestamp :=
  (window_query_bounds_and_stored_order [mkEvent "u" "file_access" [] 43200] 43300).1
    (mkEvent "u" "file_access" [] 43200) (by decide)

/-- **C8 (confirmed).**  The per-append anomaly check emits a
high-severity `multiple_ips` finding exactly when the trailing
10-minute window holds more than 3 distinct non-null IP addresses — so
4 distinct IPs trigger it and 3 or fewer do not.
(`monitor_user_activity` runs this check on the ledger that already
contains the just-appended event.) -/
theorem multiple_ip_threshold (logs : List ActivityEvent) (now : Int) :
    (∃ f ∈ detectSuspiciousPatterns logs now,
        f.type = "multiple_ips" ∧ f.severity = "high") ↔
      3 < (distinctIps (getRecentActivities logs now (10 * 60))).length := by
  simp only [detectSuspiciousPatterns]
  split_ifs <;> simp_all

/-- **C8 (witness).**  Four distinct IPs in the window produce the
finding; three do not. -/
theorem multiple_ip_threshold_witness :
    (∃ f ∈ detectSuspiciousPatterns fourIpLogs 43240,
        f.type = "multiple_ips" ∧ f.severity = "high") ∧
    ¬ (∃ f ∈ detectSuspiciousPatterns threeIpLogs 43240,
        f.type = "multiple_ips" ∧ f.severity = "high") :=
  ⟨(multiple_ip_threshold fourIpLogs 43240).mpr (by decide),
   fun hex => absurd ((multiple_ip_threshold threeIpLogs 43240).mp hex) (by decide)⟩

/-- **C9 (confirmed).**  `get_user_audit_log` reorders the stored
ledger: the stored list becomes the timestamp-descending (stable) sort
of itself.  Concretely, after appends at 43200 and 43260 the ledger is
`[43200, 43260]`; one audit-log call flips it to `[43260, 43200]`; a
subsequent append at 43320 yields `[43260, 43200, 43320]` — the new
event sits after older entries and the ledger is no longer in
insertion (timestamp-ascending) order. -/
theorem audit_log_sorts_ledger_in_place :
    (∀ st u, (get_user_audit_log st u).fst.access_logs u =
        sortByTimestampDesc (st.access_logs u)) ∧
    (∀ logs, List.Sorted laterFirst (sortByTimestampDesc logs)) ∧
    (twoEventsState.access_logs "u").map ActivityEvent.timestamp = [43200, 43260] ∧
    (afterAuditState.access_logs "u").map ActivityEvent.timestamp = [43260, 43200] ∧
    (afterAuditAppendState.access_logs "u").map ActivityEvent.timestamp
      = [43260, 43200, 43320] := by
  refine ⟨?_, ?_, by decide, by decide, by decide⟩
  · intro st u
    simp [get_user_audit_log]
  · intro logs
    haveI : IsTotal ActivityEvent laterFirst :=
      ⟨fun a b => le_total b.timestamp a.timestamp⟩
    haveI : IsTrans ActivityEvent laterFirst :=
      ⟨fun _ _ _ hab hbc => le_trans hbc hab⟩
    exact List.sorted_insertionSort laterFirst logs

/-- **C10 (confirmed).**  The hour of any instant is at most 23, so the
`hour > 23` disjunct of the off-hours rule never holds: the low-severity
`unusual_time_access` finding is emitted exactly when the UTC hour is in
0..5, and in particular never during hour 23. -/
theorem off_hours_flag_iff_hour_lt_six (logs : List ActivityEvent) (now : Int) :
    utcHour now ≤ 23 ∧
    ((∃ f ∈ detectSuspiciousPatterns logs now, f.type = "unusual_time_access") ↔
      utcHour now < 6) := by
  have hb := utcHour_lt_24 now
  refine ⟨by omega, ?_⟩
  rw [detect_off_hours_iff_cond]
  constructor
  · rintro (h | h)
    · exact h
    · omega
  · exact Or.inl

/-- **C10 (witness).**  At midnight the finding fires; at 23:00 it does
not. -/
theorem off_hours_flag_witness :
    (∃ f ∈ detectSuspiciousPatterns [] 0, f.type = "unusual_time_access") ∧
    ¬ (∃ f ∈ detectSuspiciousPatterns [] 82800, f.type = "unusual_time_access") :=
  ⟨(off_hours_flag_iff_hour_lt_six [] 0).2.mpr (by decide),
   fun hex => absurd ((off_hours_flag_iff_hour_lt_six [] 82800).2.mp hex) (by decide)⟩

end NexuFile
